import Mathlib

/-!
Verification development for a small data-analysis tool server (`server.py`).

The server exposes tabular-data operations (import, query, describe, export)
over a lazily initialized database connection.  The development below gives a
shallow embedding of the server's own logic.  External collaborators that the
code trusts (the SQL engine `duckdb`, the dataframe library `pandas`, the file
system, the process environment) are modelled as explicit parameters or as
small stateless models, while every string manipulation, branch and state
update performed by `server.py` itself is translated faithfully.

Python string primitives (`in`, `split`, `startswith`, indexing) are modelled
by executable Lean functions over `List Char`, defined below.  `str.upper()`
is Unicode-table-driven and belongs to the trusted runtime, so it is passed
as an explicit function parameter; its ASCII restriction is given executably.
-/

/-! ### Models of the Python string primitives used by `server.py` -/

/-- Model of Python substring containment over char lists:
`containsSub sep l = true` iff `sep` occurs contiguously in `l`. -/
def containsSub (sep : List Char) : List Char → Bool
  | [] => sep.isEmpty
  | c :: cs => (sep.isPrefixOf (c :: cs)) || containsSub sep cs

/-- Model of Python's `needle in s` for strings. -/
def pyIn (needle s : String) : Bool :=
  containsSub needle.toList s.toList

/-- Python's `s.upper()` performs Unicode full case mapping, driven by the
Unicode character database of the language runtime (e.g. U+0131 ı uppercases
to the ASCII letter I, and some ligatures expand to several letters).  That
table is part of the trusted runtime, so wherever the server calls
`.upper()` the mapping is passed in as an explicit parameter `up`, exactly
like `pandas.read_csv` and the engine.  `pyUpperAscii` below is the
restriction of `str.upper()` to ASCII strings — on a string of ASCII
characters the full Unicode mapping coincides with per-character ASCII
uppercase — and is used to instantiate `up` on concrete ASCII inputs. -/
def pyUpperAscii (s : String) : String :=
  String.mk (s.toList.map Char.toUpper)

/-- Model of Python's `s.startswith(pre)`. -/
def pyStartswith (s pre : String) : Bool :=
  pre.toList.isPrefixOf s.toList

/-- Fuel-driven worker for Python's `s.split(sep)` with a non-empty separator:
cuts `l` at every (leftmost, non-overlapping) occurrence of `sep`.  The fuel is
always instantiated with the length of the list, which suffices because each
step consumes at least one character. -/
def splitGo (sep : List Char) : Nat → List Char → List (List Char)
  | _, [] => [[]]
  | 0, l => [l]
  | fuel + 1, c :: cs =>
    if sep.isPrefixOf (c :: cs) then
      [] :: splitGo sep fuel (List.drop (sep.length - 1) cs)
    else
      match splitGo sep fuel cs with
      | [] => [[c]]
      | h :: t => (c :: h) :: t

/-- Model of Python's `s.split(sep)` for a non-empty separator string. -/
def pySplit (sep s : String) : List String :=
  (splitGo sep.toList s.toList.length s.toList).map String.mk

/-- Python exceptions that the modelled code can raise. -/
inductive PyErr : Type where
  /-- Python `IndexError`: list index out of range. -/
  | indexError : PyErr
  deriving DecidableEq, Repr

/-- Model of Python's fallible list indexing `l[i]` (raises `IndexError` when
`i` is out of range). -/
def pyIndex (l : List α) (i : Nat) : Except PyErr α :=
  match l.get? i with
  | none => Except.error PyErr.indexError
  | some x => Except.ok x

/-! ### `convert_google_sheet_url` (server.py lines 32-37)

Python source:
```
def convert_google_sheet_url(url: str) -> str:
    if '/edit' in url or '/view' in url:
        sheet_id = url.split('/d/')[1].split('/')[0]
        return f'https://docs.google.com/spreadsheets/d/{sheet_id}/export?format=csv'
    return url
```
The `[1]` indexing raises `IndexError` when `'/d/'` does not occur in `url`,
so the translation returns `Except PyErr String`. -/
def convert_google_sheet_url (url : String) : Except PyErr String :=
  if pyIn "/edit" url || pyIn "/view" url then
    match pyIndex (pySplit "/d/" url) 1 with
    | Except.error e => Except.error e
    | Except.ok part1 =>
      match pyIndex (pySplit "/" part1) 0 with
      | Except.error e => Except.error e
      | Except.ok sheet_id =>
        Except.ok ("https://docs.google.com/spreadsheets/d/" ++ sheet_id ++ "/export?format=csv")
  else
    Except.ok url

/-- The URL-rewriting step of `import_csv` (server.py lines 59-60): the
conversion is attempted only when the source mentions the spreadsheet host. -/
def rewriteStep (source : String) : Except PyErr String :=
  if pyIn "docs.google.com/spreadsheets" source then
    convert_google_sheet_url source
  else
    Except.ok source

/-! ### Tabular data, database state, file system

`pandas.DataFrame` is modelled by `DF`: ordered column names, a parallel list
of column type names (as reported by the engine's `DESCRIBE`), and rows of
cell values.  The engine's catalog is `DB`, a map from table name to table
contents.  The file system is `FS`, a map from path to file contents. -/

/-- Model of a dataframe / table contents. -/
structure DF : Type where
  columns : List String
  colTypes : List String
  rows : List (List String)
  deriving DecidableEq, Repr

/-- The engine's catalog: table name to contents. -/
def DB : Type := String → Option DF

/-- The file system: path to file contents. -/
def FS : Type := String → Option String

/-- Engine errors surfaced to the caller. -/
inductive EngErr : Type where
  /-- The engine's catalog error for a missing table. -/
  | tableMissing : String → EngErr
  deriving DecidableEq, Repr

/-- Model of the engine call `DROP TABLE IF EXISTS t` (server.py line 69). -/
def dropTableIfExists (db : DB) (t : String) : DB :=
  fun n => if n = t then none else db n

/-- Model of the engine call `CREATE TABLE t AS SELECT * FROM df`
(server.py line 70): fails if a table named `t` already exists. -/
def createTableAs (db : DB) (t : String) (df : DF) : Except EngErr DB :=
  match db t with
  | some _ => Except.error (EngErr.tableMissing t)
  | none => Except.ok (fun n => if n = t then some df else db n)

/-! ### `import_csv` (server.py lines 40-78) -/

/-- Result value of `import_csv` (server.py lines 72-78). -/
structure ImportResult : Type where
  success : Bool
  message : String
  table_name : String
  row_count : Nat
  columns : List String
  deriving DecidableEq, Repr

/-- The load step of `import_csv` (server.py lines 62-66): both the URL branch
and the local-path branch call `pd.read_csv(source)` on the same argument.
`read_csv` itself is the external loader, passed in as `fetch`. -/
def loadStep (fetch : String → DF) (source : String) : DF :=
  if pyStartswith source "http://" || pyStartswith source "https://" then
    fetch source
  else
    fetch source

/-- Translation of `import_csv` over an explicit catalog state: rewrite the
source URL (lines 59-60), load the data (lines 62-66), drop any existing table
and create the new one (lines 69-70), and build the result dictionary
(lines 72-78).  The `fetch` parameter models `pandas.read_csv`. -/
def import_csv (fetch : String → DF) (db : DB) (source table_name : String) :
    Except PyErr (ImportResult × DB) :=
  match rewriteStep source with
  | Except.error e => Except.error e
  | Except.ok src =>
    let df := loadStep fetch src
    match createTableAs (dropTableIfExists db table_name) table_name df with
    | Except.error _ => Except.error PyErr.indexError
    | Except.ok db2 =>
      Except.ok
        ({ success := true
           message := "Successfully imported " ++ toString df.rows.length ++
             " rows into table \x27" ++ table_name ++ "\x27"
           table_name := table_name
           row_count := df.rows.length
           columns := df.columns }, db2)

/-! ### `query_data` (server.py lines 81-113) -/

/-- Result value of `query_data` (server.py lines 108-113). -/
structure QueryResult : Type where
  success : Bool
  row_count : Nat
  columns : List String
  data : List (List String)
  deriving DecidableEq, Repr

/-- The limit-injection step of `query_data` (server.py lines 102-103): append
` LIMIT {limit}` exactly when the uppercased query text does not contain the
substring `LIMIT`.  The `up` parameter is the runtime's `str.upper()`
(Unicode full case mapping, see `pyUpperAscii`). -/
def buildQuery (up : String → String) (query : String) (limit : Nat) : String :=
  if pyIn "LIMIT" (up query) then query
  else query ++ " LIMIT " ++ toString limit

/-- Translation of `query_data`.  The `up` parameter models the runtime's
`str.upper()` and the `exec` parameter models `conn.execute(...).fetchdf()`,
the trusted engine execution. -/
def query_data (up : String → String) (exec : String → DF) (query : String)
    (limit : Nat := 100) : QueryResult :=
  let df := exec (buildQuery up query limit)
  { success := true
    row_count := df.rows.length
    columns := df.columns
    data := df.rows }

/-! ### `export_query_results` (server.py lines 173-195) -/

/-- Result value of `export_query_results` (server.py lines 190-195). -/
structure ExportResult : Type where
  success : Bool
  message : String
  row_count : Nat
  output_path : String
  deriving DecidableEq, Repr

/-- Model of `pandas.DataFrame.to_csv(path, index=False)` serialization:
a header row of the column names followed by one delimited line per row. -/
def toCsv (df : DF) : String :=
  String.intercalate "\n"
    (String.intercalate "," df.columns :: df.rows.map (String.intercalate ",")) ++ "\n"

/-- Translation of `export_query_results`: execute the query text exactly as
supplied (line 187, no `buildQuery` step), serialize, and write to
`output_path`, overwriting whatever the file system held there. -/
def export_query_results (exec : String → DF) (fs : FS) (query output_path : String) :
    ExportResult × FS :=
  let df := exec query
  ({ success := true
     message := "Exported " ++ toString df.rows.length ++ " rows to " ++ output_path
     row_count := df.rows.length
     output_path := output_path },
   fun p => if p = output_path then some (toCsv df) else fs p)

/-! ### `describe_table` (server.py lines 142-170)

The three engine calls (`DESCRIBE t`, `SELECT * FROM t LIMIT 5`,
`SELECT COUNT(*) FROM t`) are modelled by the three functions below; each
fails with the engine's catalog error when the table does not exist. -/

/-- Model of the engine call `DESCRIBE t`: column name/type pairs. -/
def engineDescribe (db : DB) (t : String) : Except EngErr (List (String × String)) :=
  match db t with
  | none => Except.error (EngErr.tableMissing t)
  | some df => Except.ok (df.columns.zip df.colTypes)

/-- Model of the engine call `SELECT * FROM t LIMIT 5`. -/
def engineSelect5 (db : DB) (t : String) : Except EngErr (List (List String)) :=
  match db t with
  | none => Except.error (EngErr.tableMissing t)
  | some df => Except.ok (df.rows.take 5)

/-- Model of the engine call `SELECT COUNT(*) FROM t`. -/
def engineCount (db : DB) (t : String) : Except EngErr Nat :=
  match db t with
  | none => Except.error (EngErr.tableMissing t)
  | some df => Except.ok df.rows.length

/-- Result value of `describe_table` (server.py lines 164-170). -/
structure DescribeResult : Type where
  success : Bool
  table_name : String
  row_count : Nat
  schema : List (String × String)
  sample_data : List (List String)
  deriving DecidableEq, Repr

/-- Translation of `describe_table`: three engine calls in sequence, any
failure propagating to the caller uncaught. -/
def describe_table (db : DB) (table_name : String) : Except EngErr DescribeResult :=
  match engineDescribe db table_name with
  | Except.error e => Except.error e
  | Except.ok schema =>
    match engineSelect5 db table_name with
    | Except.error e => Except.error e
    | Except.ok sample =>
      match engineCount db table_name with
      | Except.error e => Except.error e
      | Except.ok cnt =>
        Except.ok
          { success := true
            table_name := table_name
            row_count := cnt
            schema := schema
            sample_data := sample }

/-! ### Connection manager (server.py lines 17-29)

Python source:
```
MOTHERDUCK_TOKEN = os.getenv("MOTHERDUCK_TOKEN", "")
db_connection = None

def get_connection():
    global db_connection
    if db_connection is None:
        if MOTHERDUCK_TOKEN:
            db_connection = duckdb.connect(f'md:?motherduck_token={MOTHERDUCK_TOKEN}')
        else:
            db_connection = duckdb.connect(':memory:')
    return db_connection
```

The global `db_connection` is passed as explicit state.  `duckdb.connect` is
external and fallible; it is modelled as a function taking the attempt number
(so that distinct invocations may behave differently) and the connection
string, returning a handle or an error.  If connect raises, the Python
assignment on line 26/28 never happens, so the cached state stays `None`.
The attempt counter in `ConnState` is ghost instrumentation recording how many
times the engine initializer has been invoked. -/

/-- The process environment at module-import time: variable name to value.
`MOTHERDUCK_TOKEN` models line 17, `os.getenv("MOTHERDUCK_TOKEN", "")`. -/
def MOTHERDUCK_TOKEN (env : String → Option String) : String :=
  (env "MOTHERDUCK_TOKEN").getD ""

/-- The connection string chosen on lines 25-28: the truthiness test
`if MOTHERDUCK_TOKEN:` is nonemptiness of the token string. -/
def connString (token : String) : String :=
  if token ≠ "" then "md:?motherduck_token=" ++ token else ":memory:"

/-- State of the connection manager: the cached global `db_connection`, plus a
ghost counter of engine-initialization attempts. -/
structure ConnState (Conn : Type) : Type where
  cached : Option Conn
  attempts : Nat
  deriving DecidableEq, Repr

/-- Translation of `get_connection` over explicit state.  `connect n s` models
the engine initializer `duckdb.connect(s)` at its `n`-th invocation. -/
def get_connection {Conn ConnErr : Type} (token : String)
    (connect : Nat → String → Except ConnErr Conn) (st : ConnState Conn) :
    Except ConnErr Conn × ConnState Conn :=
  match st.cached with
  | some c => (Except.ok c, st)
  | none =>
    match connect st.attempts (connString token) with
    | Except.error e => (Except.error e, { st with attempts := st.attempts + 1 })
    | Except.ok c => (Except.ok c, { cached := some c, attempts := st.attempts + 1 })

/-- State of the connection manager after `n` successive `get_connection`
calls, starting from the process-initial state (`db_connection = None`). -/
def callsAfter {Conn ConnErr : Type} (token : String)
    (connect : Nat → String → Except ConnErr Conn) : Nat → ConnState Conn
  | 0 => { cached := none, attempts := 0 }
  | n + 1 => (get_connection token connect (callsAfter token connect n)).2

/-- The value returned (or error raised) by the `n+1`-st `get_connection`
call in that same sequence. -/
def resultOfCall {Conn ConnErr : Type} (token : String)
    (connect : Nat → String → Except ConnErr Conn) (n : Nat) : Except ConnErr Conn :=
  (get_connection token connect (callsAfter token connect n)).1

/-! ### Specification-side description of the sheet-id extraction

The spec describes the rewriting as: take "the path segment immediately
following a `/d/` marker, up to the next `/`".  `beforeFirst` and `afterFirst`
express exactly that reading, independently of the `split`-based code path;
the correspondence between the two is proved below. -/

/-- The characters of `l` strictly before the first occurrence of `sep`
(all of `l` if `sep` does not occur). -/
def beforeFirst (sep : List Char) : List Char → List Char
  | [] => []
  | c :: cs => if sep.isPrefixOf (c :: cs) then [] else c :: beforeFirst sep cs

/-- The characters of `l` strictly after the first occurrence of `sep`, or
`none` when `sep` does not occur in `l` (for non-empty `sep`). -/
def afterFirst (sep : List Char) : List Char → Option (List Char)
  | [] => if sep.isEmpty then some [] else none
  | c :: cs =>
    if sep.isPrefixOf (c :: cs) then some (List.drop (sep.length - 1) cs)
    else afterFirst sep cs

/-- The export endpoint the spec describes: the document identifier is the
path segment immediately following the first `/d/` marker, up to the next
`/`. -/
def exportUrlOf (rest : List Char) : String :=
  "https://docs.google.com/spreadsheets/d/" ++ String.mk (beforeFirst ['/'] rest) ++
    "/export?format=csv"

/-! ### Timing of the credential read (server.py line 17)

`os.getenv("MOTHERDUCK_TOKEN", "")` runs at module import, i.e. at process
start — before any `get_connection` call.  To compare this against the claim
that the credential is read at first connection use, the environment is given
as a time-indexed family `envT`: `envT t` is the process environment at time
`t`, module import happens at time 0, and the first `get_connection` call at
time `t1`. -/

/-- The connection string the code actually selects: it is computed from the
token read at process start (time 0), whatever `t1` is. -/
def codeConnTarget (envT : Nat → String → Option String) (t1 : Nat) : String :=
  connString (MOTHERDUCK_TOKEN (envT 0))

/-- The spec claim's reading, stated for comparison: the credential is read at
first connection use, i.e. from the environment at time `t1`. -/
def claimConnTarget (envT : Nat → String → Option String) (t1 : Nat) : String :=
  connString (MOTHERDUCK_TOKEN (envT t1))

/-! ### Concrete instances used by the witnesses -/

/-- Concrete loader, catalogs and results used by the C3 witness. -/
def fetchW : String → DF := fun s => DF.mk [s] ["VARCHAR"] [[s]]

def dbW0 : DB := fun _ => none

def dbW1 : DB := fun m => if m = "t" then some (fetchW "a.csv") else dropTableIfExists dbW0 "t" m

def dbW2 : DB := fun m => if m = "t" then some (fetchW "b.csv") else dropTableIfExists dbW1 "t" m

def resW1 : ImportResult :=
  { success := true
    message := "Successfully imported 1 rows into table \x27t\x27"
    table_name := "t"
    row_count := 1
    columns := ["a.csv"] }

def resW2 : ImportResult :=
  { success := true
    message := "Successfully imported 1 rows into table \x27t\x27"
    table_name := "t"
    row_count := 1
    columns := ["b.csv"] }

/-- Concrete always-succeeding engine initializer for the C4 witness. -/
def connectW4 : Nat → String → Except Unit Nat := fun _ _ => Except.ok 7

/-- Concrete fail-then-succeed engine initializer for the C5 witness. -/
def connectW5 : Nat → String → Except Unit Nat :=
  fun n _ => if n = 0 then Except.error () else Except.ok 5

/-- Environment for the C7 counterexample: the credential is absent at process
start and set from time 1 onward. -/
def envW7 : Nat → String → Option String :=
  fun t name => if name = "MOTHERDUCK_TOKEN" ∧ 1 ≤ t then some "tok123" else none

/-- Environment for the C7 amended-claim witness: the credential is present
(with the same value) at all times. -/
def envW7b : Nat → String → Option String :=
  fun _ name => if name = "MOTHERDUCK_TOKEN" then some "tokA" else none

/-! ### Lemmas about the split model -/

theorem splitGo_ne_nil (sep : List Char) (fuel : Nat) (l : List Char) :
    splitGo sep fuel l ≠ [] := by
  cases fuel with
  | zero => cases l <;> simp [splitGo]
  | succ fuel =>
    cases l with
    | nil => simp [splitGo]
    | cons c cs =>
      by_cases h : sep.isPrefixOf (c :: cs)
      · simp [splitGo, h]
      · rcases he : splitGo sep fuel cs with _ | ⟨h1, t⟩ <;> simp [splitGo, h, he]

theorem splitGo_of_not_contains (sep : List Char) (fuel : Nat) (l : List Char)
    (h : containsSub sep l = false) : splitGo sep fuel l = [l] := by
  induction fuel generalizing l with
  | zero => cases l <;> simp [splitGo]
  | succ fuel ih =>
    cases l with
    | nil => simp [splitGo]
    | cons c cs =>
      have h2 : sep.isPrefixOf (c :: cs) = false ∧ containsSub sep cs = false := by
        simpa [containsSub] using h
      simp [splitGo, h2.1, ih cs h2.2]

theorem splitGo_get_zero (sep : List Char) (fuel : Nat) (l : List Char)
    (h : l.length ≤ fuel) :
    (splitGo sep fuel l).get? 0 = some (beforeFirst sep l) := by
  induction fuel generalizing l with
  | zero =>
    have hl : l = [] := List.length_eq_zero.mp (Nat.le_zero.mp h)
    subst hl
    simp [splitGo, beforeFirst]
  | succ fuel ih =>
    cases l with
    | nil => simp [splitGo, beforeFirst]
    | cons c cs =>
      by_cases hp : sep.isPrefixOf (c :: cs)
      · simp [splitGo, hp, beforeFirst]
      · have hl : cs.length ≤ fuel := Nat.succ_le_succ_iff.mp (by simpa using h)
        rcases he : splitGo sep fuel cs with _ | ⟨h1, t⟩
        · exact absurd he (splitGo_ne_nil sep fuel cs)
        · have hh : h1 = beforeFirst sep cs := by
            have := ih cs hl
            rw [he] at this
            simpa using this
          simp [splitGo, hp, he, beforeFirst, hh]

theorem splitGo_get_one (sep : List Char) (fuel : Nat) (l rest : List Char)
    (hsep : sep ≠ []) (h : l.length ≤ fuel) (ha : afterFirst sep l = some rest) :
    (splitGo sep fuel l).get? 1 = some (beforeFirst sep rest) := by
  induction fuel generalizing l with
  | zero =>
    have hl : l = [] := List.length_eq_zero.mp (Nat.le_zero.mp h)
    subst hl
    simp [afterFirst, hsep] at ha
  | succ fuel ih =>
    cases l with
    | nil => simp [afterFirst, hsep] at ha
    | cons c cs =>
      by_cases hp : sep.isPrefixOf (c :: cs)
      · have hrest : List.drop (sep.length - 1) cs = rest := by
          simpa [afterFirst, hp] using ha
        have hl2 : (List.drop (sep.length - 1) cs).length ≤ fuel := by
          have : cs.length ≤ fuel := Nat.succ_le_succ_iff.mp (by simpa using h)
          calc (List.drop (sep.length - 1) cs).length ≤ cs.length := by
                simp [List.length_drop]
            _ ≤ fuel := this
        simpa [splitGo, hp, hrest] using
          splitGo_get_zero sep fuel (List.drop (sep.length - 1) cs) hl2
      · have ha2 : afterFirst sep cs = some rest := by simpa [afterFirst, hp] using ha
        have hl : cs.length ≤ fuel := Nat.succ_le_succ_iff.mp (by simpa using h)
        rcases he : splitGo sep fuel cs with _ | ⟨h1, t⟩
        · exact absurd he (splitGo_ne_nil sep fuel cs)
        · have := ih cs hl ha2
          rw [he] at this
          simpa [splitGo, hp, he] using this

theorem beforeFirst_cons_marker (a : Char) (s l : List Char) :
    beforeFirst [a] (beforeFirst (a :: s) l) = beforeFirst [a] l := by
  induction l with
  | nil => simp [beforeFirst]
  | cons c cs ih =>
    by_cases hp : (a :: s).isPrefixOf (c :: cs)
    · have hac : a = c := by
        have h2 := hp
        simp [List.isPrefixOf] at h2
        exact h2.1
      subst hac
      simp only [beforeFirst, hp, List.isPrefixOf, if_true]
      split <;> simp [beforeFirst, List.isPrefixOf]
    · by_cases hc : a = c
      · subst hc
        simp [beforeFirst, hp, List.isPrefixOf]
        split <;> simp [beforeFirst, List.isPrefixOf]
      · simp [beforeFirst, hp, List.isPrefixOf, hc, ih]

/-! ### Helper lemmas about the tool operations -/

theorem loadStep_eq (fetch : String → DF) (source : String) :
    loadStep fetch source = fetch source := by
  simp [loadStep]

theorem import_csv_ok (fetch : String → DF) (db : DB) (s t u : String)
    (hu : rewriteStep s = Except.ok u) :
    import_csv fetch db s t = Except.ok
      ({ success := true
         message := "Successfully imported " ++ toString (fetch u).rows.length ++
           " rows into table \x27" ++ t ++ "\x27"
         table_name := t
         row_count := (fetch u).rows.length
         columns := (fetch u).columns },
       fun m => if m = t then some (fetch u) else dropTableIfExists db t m) := by
  unfold import_csv
  rw [hu]
  simp [createTableAs, dropTableIfExists, loadStep_eq, Except.bind]

/-! ### Claim theorems -/

/-- C10: in `import_csv`, the URL branch (`http://`/`https://` sources) and the
local-path branch invoke the identical load operation on the same argument, so
the loaded tabular data is exactly what that single load produces and the
URL-versus-path distinction has no behavioral effect. -/
theorem c10_url_path_branches_equal (fetch : String → DF) (source : String) :
    loadStep fetch source = fetch source :=
  loadStep_eq fetch source

/-- C1: for any runtime uppercase mapping `up` (Python's Unicode-aware
`str.upper()`) and any engine whose trailing-`LIMIT` semantics bounds the
result, a query whose uppercased text does not contain `LIMIT` gets
` LIMIT {limit}` appended and returns at most `limit` rows, while a query
whose uppercased text does contain that substring anywhere is executed
unchanged with no ceiling applied.  The branch condition is exactly the
program's check `"LIMIT" in query.upper()` with the runtime's own mapping. -/
theorem c1_query_data_limit (up : String → String) (exec : String → DF)
    (hexec : ∀ q n, (exec (q ++ " LIMIT " ++ toString n)).rows.length ≤ n)
    (query : String) (limit : Nat) :
    (pyIn "LIMIT" (up query) = false →
      buildQuery up query limit = query ++ " LIMIT " ++ toString limit ∧
      (query_data up exec query limit).row_count ≤ limit ∧
      (query_data up exec query limit).data.length ≤ limit) ∧
    (pyIn "LIMIT" (up query) = true →
      buildQuery up query limit = query ∧
      query_data up exec query limit =
        { success := true
          row_count := (exec query).rows.length
          columns := (exec query).columns
          data := (exec query).rows }) := by
  constructor
  · intro h
    have hb : buildQuery up query limit = query ++ " LIMIT " ++ toString limit := by
      simp [buildQuery, h]
    exact ⟨hb, by simp [query_data, hb, hexec query limit],
      by simp [query_data, hb, hexec query limit]⟩
  · intro h
    have hb : buildQuery up query limit = query := by simp [buildQuery, h]
    exact ⟨hb, by simp [query_data, hb]⟩

theorem c1_query_data_limit_witness :
    (query_data pyUpperAscii (fun _ => DF.mk [] [] []) "SELECT * FROM t" 100).row_count ≤ 100 :=
  ((c1_query_data_limit pyUpperAscii (fun _ => DF.mk [] [] []) (fun _ n => Nat.zero_le n)
    "SELECT * FROM t" 100).1 (by decide)).2.1

/-- C8: `export_query_results` executes the query text exactly as supplied
(no limit injection), writes the serialization (header row plus data rows) of
the full result set to `output_path` regardless of what the file system
previously held there, and leaves every other path untouched. -/
theorem c8_export_full_results (exec : String → DF) (fs : FS) (query output_path : String) :
    (export_query_results exec fs query output_path).2 output_path =
      some (toCsv (exec query)) ∧
    (export_query_results exec fs query output_path).1.row_count =
      (exec query).rows.length ∧
    (export_query_results exec fs query output_path).1.success = true ∧
    (∀ p, p ≠ output_path → (export_query_results exec fs query output_path).2 p = fs p) := by
  refine ⟨by simp [export_query_results], by simp [export_query_results],
    by simp [export_query_results], ?_⟩
  intro p hp
  simp [export_query_results, hp]

theorem c8_export_full_results_witness :
    (export_query_results (fun _ => DF.mk ["a"] ["INT"] [["1"]])
      (fun _ => some "old") "SELECT 1" "out.csv").2 "out.csv" = some "a\n1\n" ∧
    (export_query_results (fun _ => DF.mk ["a"] ["INT"] [["1"]])
      (fun _ => some "old") "SELECT 1" "out.csv").2 "other.csv" = some "old" := by
  have h := c8_export_full_results (fun _ => DF.mk ["a"] ["INT"] [["1"]])
    (fun _ => some "old") "SELECT 1" "out.csv"
  exact ⟨h.1, h.2.2.2 "other.csv" (by decide)⟩

/-- C9: `describe_table` on a missing table fails with the engine's
table-not-found error (never a success result with empty schema or data),
and on an existing table returns success with its column name/type pairs,
its first 5 rows, and its total row count. -/
theorem c9_describe_table (db : DB) (t : String) :
    (db t = none → describe_table db t = Except.error (EngErr.tableMissing t)) ∧
    (∀ df, db t = some df →
      describe_table db t = Except.ok
        { success := true
          table_name := t
          row_count := df.rows.length
          schema := df.columns.zip df.colTypes
          sample_data := df.rows.take 5 }) := by
  constructor
  · intro h
    simp [describe_table, engineDescribe, h]
  · intro df h
    simp [describe_table, engineDescribe, engineSelect5, engineCount, h]

theorem c9_describe_table_witness :
    describe_table (fun n => if n = "t" then some (DF.mk ["id", "name"] ["INT", "VARCHAR"]
      [["1", "a"], ["2", "b"], ["3", "c"], ["4", "d"], ["5", "e"], ["6", "f"]]) else none)
      "missing" = Except.error (EngErr.tableMissing "missing") ∧
    describe_table (fun n => if n = "t" then some (DF.mk ["id", "name"] ["INT", "VARCHAR"]
      [["1", "a"], ["2", "b"], ["3", "c"], ["4", "d"], ["5", "e"], ["6", "f"]]) else none)
      "t" = Except.ok
        { success := true
          table_name := "t"
          row_count := 6
          schema := [("id", "INT"), ("name", "VARCHAR")]
          sample_data := [["1", "a"], ["2", "b"], ["3", "c"], ["4", "d"], ["5", "e"]] } := by
  constructor
  · exact (c9_describe_table (fun n => if n = "t" then some (DF.mk ["id", "name"]
      ["INT", "VARCHAR"] [["1", "a"], ["2", "b"], ["3", "c"], ["4", "d"], ["5", "e"], ["6", "f"]])
      else none) "missing").1 (by decide)
  · exact (c9_describe_table (fun n => if n = "t" then some (DF.mk ["id", "name"]
      ["INT", "VARCHAR"] [["1", "a"], ["2", "b"], ["3", "c"], ["4", "d"], ["5", "e"], ["6", "f"]])
      else none) "t").2 (DF.mk ["id", "name"] ["INT", "VARCHAR"]
      [["1", "a"], ["2", "b"], ["3", "c"], ["4", "d"], ["5", "e"], ["6", "f"]]) (by decide)

/-- C3: a second `import_csv` under the same table name fully replaces the
first (drop-if-exists then create): afterward the name denotes exactly the
data loaded by the most recent import, and every other table is untouched
by the pair of imports — no merging or appending. -/
theorem c3_reimport_replaces (fetch : String → DF) (db : DB) (s1 s2 n u1 u2 : String)
    (r1 : ImportResult) (db1 : DB) (r2 : ImportResult) (db2 : DB)
    (hr1 : rewriteStep s1 = Except.ok u1) (hr2 : rewriteStep s2 = Except.ok u2)
    (h1 : import_csv fetch db s1 n = Except.ok (r1, db1))
    (h2 : import_csv fetch db1 s2 n = Except.ok (r2, db2)) :
    db2 n = some (fetch u2) ∧ ∀ m, m ≠ n → db2 m = db m := by
  rw [import_csv_ok fetch db s1 n u1 hr1] at h1
  rw [import_csv_ok fetch db1 s2 n u2 hr2] at h2
  simp only [Except.ok.injEq, Prod.mk.injEq] at h1 h2
  obtain ⟨-, hdb1⟩ := h1
  obtain ⟨-, hdb2⟩ := h2
  constructor
  · rw [← hdb2]
    simp
  · intro m hm
    rw [← hdb2, ← hdb1]
    simp [dropTableIfExists, hm]

theorem c3_reimport_replaces_witness :
    dbW2 "t" = some (fetchW "b.csv") ∧ ∀ m, m ≠ "t" → dbW2 m = dbW0 m :=
  c3_reimport_replaces fetchW dbW0 "a.csv" "b.csv" "t" "a.csv" "b.csv"
    resW1 dbW1 resW2 dbW2 (by rfl) (by rfl) (by rfl) (by rfl)

/-- C4: when engine initialization succeeds, the first `get_connection` call
creates the handle and caches it, and every later call in the same process
returns the identical cached handle with the initializer never invoked again
(the ghost attempt counter stays at 1), so at most one live connection exists
per process. -/
theorem c4_get_connection_idempotent {Conn ConnErr : Type} (token : String)
    (connect : Nat → String → Except ConnErr Conn) (c : Conn)
    (h : connect 0 (connString token) = Except.ok c) (n : Nat) :
    resultOfCall token connect n = Except.ok c ∧
    callsAfter token connect (n + 1) = { cached := some c, attempts := 1 } := by
  induction n with
  | zero => constructor <;> simp [resultOfCall, callsAfter, get_connection, h]
  | succ k ih =>
    have step : callsAfter token connect (k + 1 + 1) =
        (get_connection token connect (callsAfter token connect (k + 1))).2 := rfl
    constructor
    · simp only [resultOfCall]
      rw [ih.2]
      simp [get_connection]
    · rw [step, ih.2]
      simp [get_connection]

theorem c4_get_connection_idempotent_witness :
    resultOfCall "" connectW4 3 = Except.ok 7 ∧
    callsAfter "" connectW4 4 = { cached := some 7, attempts := 1 } :=
  c4_get_connection_idempotent "" connectW4 7 (by rfl) 3

/-- C5: when engine initialization fails on the first call, no handle is
cached (the shared state still holds no connection afterward), the error
propagates to the caller, and the next call re-attempts initialization from
scratch — succeeding with a fresh handle if the initializer now succeeds,
rather than returning a stale or partial handle. -/
theorem c5_connect_failure_not_cached {Conn ConnErr : Type} (token : String)
    (connect : Nat → String → Except ConnErr Conn) (e : ConnErr)
    (h : connect 0 (connString token) = Except.error e) :
    resultOfCall token connect 0 = Except.error e ∧
    callsAfter token connect 1 = { cached := none, attempts := 1 } ∧
    (∀ c, connect 1 (connString token) = Except.ok c →
      resultOfCall token connect 1 = Except.ok c ∧
      callsAfter token connect 2 = { cached := some c, attempts := 2 }) := by
  have h1 : callsAfter token connect 1 = { cached := none, attempts := 1 } := by
    simp [callsAfter, get_connection, h]
  refine ⟨?_, h1, ?_⟩
  · simp [resultOfCall, callsAfter, get_connection, h]
  · intro c hc
    have step : callsAfter token connect 2 =
        (get_connection token connect (callsAfter token connect 1)).2 := rfl
    constructor
    · simp [resultOfCall, h1, get_connection, hc]
    · rw [step, h1]
      simp [get_connection, hc]

theorem c5_connect_failure_not_cached_witness :
    resultOfCall "" connectW5 0 = Except.error () ∧
    callsAfter "" connectW5 1 = { cached := none, attempts := 1 } ∧
    resultOfCall "" connectW5 1 = Except.ok 5 ∧
    callsAfter "" connectW5 2 = { cached := some 5, attempts := 2 } := by
  have h := c5_connect_failure_not_cached "" connectW5 () (by rfl)
  have h2 := h.2.2 5 (by rfl)
  exact ⟨h.1, h.2.1, h2.1, h2.2⟩

/-- C2 counterexample: a malformed sharing URL that names the spreadsheet host
and an `/edit` marker but has no `/d/` segment makes the URL-rewriting step
itself raise `IndexError` — the claim that the rewriting step raises no error
for any malformed sharing URL is false. -/
theorem c2_counterexample :
    rewriteStep "https://docs.google.com/spreadsheets/edit" =
      Except.error PyErr.indexError := by rfl

/-- C2 amended: a source without the spreadsheet-host marker, or without any
`/edit`/`/view` marker, passes through the rewriting step unchanged with no
error; but a source with the host marker and an `/edit` or `/view` marker yet
no `/d/` marker makes the rewriting step itself raise `IndexError` — failure
is not always deferred to the downstream fetch. -/
theorem c2_rewrite_passthrough (url : String) :
    (pyIn "docs.google.com/spreadsheets" url = false → rewriteStep url = Except.ok url) ∧
    (pyIn "/edit" url = false → pyIn "/view" url = false →
      rewriteStep url = Except.ok url) ∧
    (pyIn "docs.google.com/spreadsheets" url = true →
      (pyIn "/edit" url || pyIn "/view" url) = true →
      pyIn "/d/" url = false →
      rewriteStep url = Except.error PyErr.indexError) := by
  refine ⟨?_, ?_, ?_⟩
  · intro h
    simp [rewriteStep, h]
  · intro h1 h2
    by_cases hh : pyIn "docs.google.com/spreadsheets" url
    · simp [rewriteStep, hh, convert_google_sheet_url, h1, h2]
    · simp [rewriteStep, hh]
  · intro hh hm hd
    have hsplit : pySplit "/d/" url = [url] := by
      unfold pySplit
      rw [splitGo_of_not_contains ("/d/".toList) url.toList.length url.toList hd]
      rfl
    simp [rewriteStep, hh, convert_google_sheet_url, hm, pyIndex, hsplit, List.get?]

theorem c2_rewrite_passthrough_witness :
    rewriteStep "local.csv" = Except.ok "local.csv" ∧
    rewriteStep "https://docs.google.com/spreadsheets/d/X" =
      Except.ok "https://docs.google.com/spreadsheets/d/X" ∧
    rewriteStep "https://docs.google.com/spreadsheets/view" =
      Except.error PyErr.indexError :=
  ⟨(c2_rewrite_passthrough "local.csv").1 (by decide),
   (c2_rewrite_passthrough "https://docs.google.com/spreadsheets/d/X").2.1
     (by decide) (by decide),
   (c2_rewrite_passthrough "https://docs.google.com/spreadsheets/view").2.2
     (by decide) (by decide) (by decide)⟩

/-- C6: for every source URL with the spreadsheet host marker, an `/edit` or
`/view` marker, and a `/d/` marker (`rest` being the characters after the
first `/d/`), the rewriting step produces the export endpoint embedding the
path segment immediately after `/d/` up to the next `/`, and `import_csv`
succeeds against that derived URL, storing the data fetched from it. -/
theorem c6_sheet_url_rewrite (url : String) (rest : List Char)
    (hhost : pyIn "docs.google.com/spreadsheets" url = true)
    (hmark : (pyIn "/edit" url || pyIn "/view" url) = true)
    (hd : afterFirst ('/' :: 'd' :: '/' :: []) url.toList = some rest) :
    rewriteStep url = Except.ok (exportUrlOf rest) ∧
    ∀ (fetch : String → DF) (db : DB) (t : String), ∃ r db2,
      import_csv fetch db url t = Except.ok (r, db2) ∧
      db2 t = some (fetch (exportUrlOf rest)) := by
  have hsep : ("/d/" : String).toList = '/' :: 'd' :: '/' :: [] := rfl
  have hget1 : (splitGo ("/d/".toList) url.toList.length url.toList).get? 1 =
      some (beforeFirst ("/d/".toList) rest) := by
    apply splitGo_get_one
    · rw [hsep]
      simp
    · exact Nat.le_refl _
    · rw [hsep]
      exact hd
  have hpart1 : pyIndex (pySplit "/d/" url) 1 =
      Except.ok (String.mk (beforeFirst ("/d/".toList) rest)) := by
    unfold pySplit pyIndex
    rw [List.get?_map, hget1]
    rfl
  have hsheet : pyIndex (pySplit "/" (String.mk (beforeFirst ("/d/".toList) rest))) 0 =
      Except.ok (String.mk (beforeFirst ['/'] rest)) := by
    unfold pySplit pyIndex
    have ht : (String.mk (beforeFirst ("/d/".toList) rest)).toList =
        beforeFirst ("/d/".toList) rest := rfl
    rw [ht, List.get?_map,
      splitGo_get_zero ("/".toList) (beforeFirst ("/d/".toList) rest).length
        (beforeFirst ("/d/".toList) rest) (Nat.le_refl _)]
    have hbb : beforeFirst ("/".toList) (beforeFirst ("/d/".toList) rest) =
        beforeFirst ['/'] rest := by
      rw [hsep]
      exact beforeFirst_cons_marker '/' ['d', '/'] rest
    rw [hbb]
    rfl
  have hconv : convert_google_sheet_url url = Except.ok (exportUrlOf rest) := by
    unfold convert_google_sheet_url
    rw [hpart1]
    simp only [hmark, if_true]
    rw [hsheet]
    rfl
  have hrew : rewriteStep url = Except.ok (exportUrlOf rest) := by
    simp [rewriteStep, hhost, hconv]
  refine ⟨hrew, ?_⟩
  intro fetch db t
  refine ⟨_, _, import_csv_ok fetch db url t (exportUrlOf rest) hrew, ?_⟩
  simp

theorem c6_sheet_url_rewrite_witness :
    rewriteStep "https://docs.google.com/spreadsheets/d/ABC123/edit" =
      Except.ok "https://docs.google.com/spreadsheets/d/ABC123/export?format=csv" :=
  (c6_sheet_url_rewrite "https://docs.google.com/spreadsheets/d/ABC123/edit"
    ("ABC123/edit".toList) (by decide) (by decide) (by decide)).1

/-- C7 counterexample: when the environment variable changes between process
start and the first connection use (here: set only after start), the code
selects the local in-memory mode from the start-time read, while the claim's
first-use read would select the remote-authenticated mode — so the credential
is not read at first connection use. -/
theorem c7_counterexample :
    codeConnTarget envW7 1 = ":memory:" ∧
    claimConnTarget envW7 1 = "md:?motherduck_token=tok123" ∧
    codeConnTarget envW7 1 ≠ claimConnTarget envW7 1 := by
  refine ⟨by rfl, by rfl, by decide⟩

/-- C7 amended: the credential is read exactly once, at process start (module
initialization, before any connection use); its presence at that read
determines the mode — remote-authenticated when nonempty, local in-memory
when empty — the chosen mode does not depend on when the first connection use
happens, no environment input other than that one variable's start-time value
affects it, and the first connection attempt passes exactly that
start-time-determined connection string to the engine. -/
theorem c7_token_read_at_start {Conn ConnErr : Type}
    (envT envT2 : Nat → String → Option String) (t1 t2 : Nat)
    (connect : Nat → String → Except ConnErr Conn) (k : Nat) (c : Conn) :
    codeConnTarget envT t1 = connString (MOTHERDUCK_TOKEN (envT 0)) ∧
    codeConnTarget envT t1 = codeConnTarget envT t2 ∧
    (MOTHERDUCK_TOKEN (envT 0) ≠ "" →
      codeConnTarget envT t1 = "md:?motherduck_token=" ++ MOTHERDUCK_TOKEN (envT 0)) ∧
    (MOTHERDUCK_TOKEN (envT 0) = "" → codeConnTarget envT t1 = ":memory:") ∧
    (envT 0 "MOTHERDUCK_TOKEN" = envT2 0 "MOTHERDUCK_TOKEN" →
      codeConnTarget envT t1 = codeConnTarget envT2 t2) ∧
    (connect k (codeConnTarget envT t1) = Except.ok c →
      get_connection (MOTHERDUCK_TOKEN (envT 0)) connect
        { cached := none, attempts := k } =
        (Except.ok c, { cached := some c, attempts := k + 1 })) := by
  refine ⟨rfl, rfl, ?_, ?_, ?_, ?_⟩
  · intro h
    simp [codeConnTarget, connString, h]
  · intro h
    simp [codeConnTarget, connString, h]
  · intro h
    simp [codeConnTarget, MOTHERDUCK_TOKEN, h]
  · intro h
    simp only [codeConnTarget] at h
    simp [get_connection, h]

theorem c7_token_read_at_start_witness :
    codeConnTarget envW7b 5 = "md:?motherduck_token=tokA" ∧
    get_connection (MOTHERDUCK_TOKEN (envW7b 0)) connectW4
      { cached := none, attempts := 0 } =
      (Except.ok 7, { cached := some 7, attempts := 1 }) := by
  have h := @c7_token_read_at_start Nat Unit envW7b envW7b 5 5 connectW4 0 7
  exact ⟨h.2.2.1 (by decide), h.2.2.2.2.2 (by rfl)⟩
